import Mathlib

/-!
Verification of the orchestration-loop client of the ollama_mcp_test
repository (src/client.py) against its natural-language specification.

The embedding models:
  * JSON-like Python values (`Value`) with Python truthiness;
  * `json.loads` as a fuel-based JSON parser (`json_loads`);
  * the tool-call argument coercion performed inside `main`
    (`coerce_args`, client.py lines 197-206);
  * the result normalizer `_result_to_text` (client.py lines 52-78);
  * the schema translator `_tool_to_ollama_schema` (client.py lines 23-49);
  * the per-turn tool-calling loop (`toolLoop`, client.py lines 161-228)
    and the outer interactive session loop (`sessionLoop`,
    client.py lines 147-228), with the model endpoint and the MCP tool
    executor as parameters.
-/

namespace OllamaMcp

/-- JSON-like values, standing for the Python values that flow through the
client: `None`, booleans, integers, strings, lists and string-keyed dicts.
Non-integer JSON numbers are carried as their source text in `num`
(no claim depends on float arithmetic or float truthiness). -/
inductive Value where
  | null : Value
  | bool (b : Bool) : Value
  | int (n : Int) : Value
  | num (source : String) : Value
  | str (s : String) : Value
  | list (xs : List Value) : Value
  | dict (kvs : List (String × Value)) : Value
deriving Repr

/-- Python truthiness of a value: `None`, `False`, `0`, `""`, `[]` and
`\x7b\x7d` are falsy.  (A non-integer number is treated as truthy; no claim
evaluates truthiness on a float.) -/
def Value.truthy : Value → Bool
  | .null => false
  | .bool b => b
  | .int n => n != 0
  | .num _ => true
  | .str s => s != ""
  | .list xs => !xs.isEmpty
  | .dict kvs => !kvs.isEmpty

/-- Model of `d.get(k, dflt)` on a Python dict, modelled on an association list whose
keys are the dict's (distinct) keys in insertion order. -/
def dictGet (kvs : List (String × Value)) (k : String) (dflt : Value) : Value :=
  match kvs.find? (fun kv => kv.1 == k) with
  | some kv => kv.2
  | none => dflt

/-! ## `json.loads` (used by the argument coercion at client.py line 199)

A fuel-based JSON parser over the character list of the input, faithful to
Python's strict `json.loads` on objects, arrays, strings, integers,
booleans and `null`: standard escape sequences including `\uXXXX`,
no leading zeros in numbers, no trailing garbage, raw control characters
rejected inside strings.  Non-integer numbers are kept as source text. -/

/-- The whitespace characters `json.loads` skips between tokens. -/
def jsonWs (c : Char) : Bool :=
  c == ' ' || c == '\t' || c == '\n' || c == '\r'

def skipWs : List Char → List Char
  | [] => []
  | c :: cs => if jsonWs c then skipWs cs else c :: cs

def hexDigit? (c : Char) : Option Nat :=
  if '0' ≤ c ∧ c ≤ '9' then some (c.toNat - '0'.toNat)
  else if 'a' ≤ c ∧ c ≤ 'f' then some (c.toNat - 'a'.toNat + 10)
  else if 'A' ≤ c ∧ c ≤ 'F' then some (c.toNat - 'A'.toNat + 10)
  else none

def isDigit (c : Char) : Bool := '0' ≤ c && c ≤ '9'

/-- Parse the body of a JSON string after the opening quote, returning the
decoded string and the remaining input after the closing quote. -/
def parseStringBody (fuel : Nat) (cs : List Char) (acc : List Char) :
    Option (String × List Char) :=
  match fuel with
  | 0 => none
  | fuel + 1 =>
    match cs with
    | [] => none
    | '"' :: rest => some (String.mk acc.reverse, rest)
    | '\\' :: e :: rest =>
      match e with
      | '"' => parseStringBody fuel rest ('"' :: acc)
      | '\\' => parseStringBody fuel rest ('\\' :: acc)
      | '/' => parseStringBody fuel rest ('/' :: acc)
      | 'b' => parseStringBody fuel rest ('\x08' :: acc)
      | 'f' => parseStringBody fuel rest ('\x0c' :: acc)
      | 'n' => parseStringBody fuel rest ('\n' :: acc)
      | 'r' => parseStringBody fuel rest ('\r' :: acc)
      | 't' => parseStringBody fuel rest ('\t' :: acc)
      | 'u' =>
        match rest with
        | h1 :: h2 :: h3 :: h4 :: rest2 =>
          match hexDigit? h1, hexDigit? h2, hexDigit? h3, hexDigit? h4 with
          | some d1, some d2, some d3, some d4 =>
            let n := ((d1 * 16 + d2) * 16 + d3) * 16 + d4
            parseStringBody fuel rest2 (Char.ofNat n :: acc)
          | _, _, _, _ => none
        | _ => none
      | _ => none
    | '\\' :: [] => none
    | c :: rest =>
      if c.toNat < 0x20 then none
      else parseStringBody fuel rest (c :: acc)

/-- Parse the digits and shape of a JSON number starting at `cs` (the
leading `-`, if any, has been recognised by the caller and is included in
`cs`).  Returns the consumed source text, whether a fraction or exponent
was seen, and the remainder. -/
def parseNumberChars (cs : List Char) : Option (List Char × Bool × List Char) :=
  let (neg, cs1) := match cs with
    | '-' :: t => ([('-' : Char)], t)
    | t => ([], t)
  match cs1 with
  | [] => none
  | c :: _ =>
    if !isDigit c then none
    else
      let intPart := cs1.takeWhile isDigit
      let afterInt := cs1.dropWhile isDigit
      -- json.loads rejects leading zeros such as "01"
      if intPart.length > 1 ∧ intPart.head? = some '0' then none
      else
        let (fracPart, afterFrac) :=
          match afterInt with
          | '.' :: t =>
            if t.head?.any isDigit then
              ('.' :: t.takeWhile isDigit, t.dropWhile isDigit)
            else ([], afterInt)
          | _ => ([], afterInt)
        if fracPart.isEmpty ∧ afterInt.head? = some '.' then none
        else
          let (expPart, afterExp) :=
            match afterFrac with
            | e :: t =>
              if e == 'e' || e == 'E' then
                let (sign, t2) := match t with
                  | '+' :: t2 => ([('+' : Char)], t2)
                  | '-' :: t2 => ([('-' : Char)], t2)
                  | t2 => ([], t2)
                if t2.head?.any isDigit then
                  (e :: (sign ++ t2.takeWhile isDigit), t2.dropWhile isDigit)
                else ([], afterFrac)
              else ([], afterFrac)
            | _ => ([], afterFrac)
          if expPart.isEmpty ∧
              (afterFrac.head? = some 'e' ∨ afterFrac.head? = some 'E') then
            none
          else
            let src := neg ++ intPart ++ fracPart ++ expPart
            some (src, !(fracPart.isEmpty && expPart.isEmpty), afterExp)

/-- Decimal value of a digit string (the caller guarantees digits only). -/
def digitsToNat (ds : List Char) : Nat :=
  ds.foldl (fun acc c => acc * 10 + (c.toNat - '0'.toNat)) 0

mutual

def parseValue (fuel : Nat) (cs : List Char) : Option (Value × List Char) :=
  match fuel with
  | 0 => none
  | fuel + 1 =>
    match skipWs cs with
    | [] => none
    | c :: rest =>
      if c = '"' then
        match parseStringBody fuel rest [] with
        | some (s, rest2) => some (.str s, rest2)
        | none => none
      else if c = '{' then
        match skipWs rest with
        | '}' :: rest2 => some (.dict [], rest2)
        | rest2 => parseMembers fuel rest2 []
      else if c = '[' then
        match skipWs rest with
        | ']' :: rest2 => some (.list [], rest2)
        | rest2 => parseElements fuel rest2 []
      else if c = 't' then
        match rest with
        | 'r' :: 'u' :: 'e' :: rest2 => some (.bool true, rest2)
        | _ => none
      else if c = 'f' then
        match rest with
        | 'a' :: 'l' :: 's' :: 'e' :: rest2 => some (.bool false, rest2)
        | _ => none
      else if c = 'n' then
        match rest with
        | 'u' :: 'l' :: 'l' :: rest2 => some (.null, rest2)
        | _ => none
      else if c = '-' ∨ isDigit c then
        match parseNumberChars (c :: rest) with
        | some (src, isFloat, rest2) =>
          if isFloat then some (.num (String.mk src), rest2)
          else
            match src with
            | '-' :: ds => some (.int (-(digitsToNat ds : Int)), rest2)
            | ds => some (.int (digitsToNat ds : Int), rest2)
        | none => none
      else none

/-- Parse the members of a JSON object after `\x7b` (first key expected at
the head of `cs`, whitespace already skipped, object known non-empty). -/
def parseMembers (fuel : Nat) (cs : List Char) (acc : List (String × Value)) :
    Option (Value × List Char) :=
  match fuel with
  | 0 => none
  | fuel + 1 =>
    match cs with
    | '"' :: rest =>
      match parseStringBody fuel rest [] with
      | some (key, rest2) =>
        match skipWs rest2 with
        | ':' :: rest3 =>
          match parseValue fuel rest3 with
          | some (v, rest4) =>
            match skipWs rest4 with
            | ',' :: rest5 => parseMembers fuel (skipWs rest5) ((key, v) :: acc)
            | '}' :: rest5 => some (.dict ((key, v) :: acc).reverse, rest5)
            | _ => none
          | none => none
        | _ => none
      | none => none
    | _ => none

/-- Parse the elements of a JSON array after `[` (array known non-empty). -/
def parseElements (fuel : Nat) (cs : List Char) (acc : List Value) :
    Option (Value × List Char) :=
  match fuel with
  | 0 => none
  | fuel + 1 =>
    match parseValue fuel cs with
    | some (v, rest) =>
      match skipWs rest with
      | ',' :: rest2 => parseElements fuel rest2 (v :: acc)
      | ']' :: rest2 => some (.list ((v :: acc).reverse), rest2)
      | _ => none
    | none => none

end

/-- Model of `json.loads`: parse a complete JSON document; anything but whitespace
after the value is an error. -/
def json_loads (s : String) : Option Value :=
  match parseValue (2 * s.length + 4) s.toList with
  | some (v, rest) => if (skipWs rest).isEmpty then some v else none
  | none => none

/-! ## Argument coercion (client.py lines 192-206)

`args = fn.get("arguments")` may be absent (`None`), a string, a dict, or
anything else.  The code then runs:
```text
if isinstance(args, str):
    try: args = json.loads(args)
    except json.JSONDecodeError: args = ("_raw": args)
if not isinstance(args, dict): args = ()
```
-/

/-- The shape of `fn.get("arguments")` as received from the model:
absent (`None`), a raw string, a structured mapping, or any other
non-string non-mapping value. -/
inductive ArgVal where
  | absent : ArgVal
  | str (s : String) : ArgVal
  | dict (kvs : List (String × Value)) : ArgVal
  | other : ArgVal
deriving Repr

/-- The argument coercion of client.py lines 197-206: a string is JSON
decoded (decode failure yields the `_raw` wrapper, which is itself a dict
and therefore survives the final `isinstance` check); any non-dict value
left after that step becomes the empty mapping. -/
def coerce_args : ArgVal → List (String × Value)
  | .str s =>
    match json_loads s with
    | some (.dict kvs) => kvs
    | some _ => []
    | none => [("_raw", Value.str s)]
  | .dict kvs => kvs
  | .absent => []
  | .other => []

/-! ## Result normalizer `_result_to_text` (client.py lines 52-78) -/

/-- A Python object as seen by `_result_to_text`: a content part (with an
optional `text` attribute and its `str()` rendering), a list, or any other
object carried with its `str()` rendering.  `str()` of an arbitrary
object is not derivable from its fields, so it is part of the model. -/
inductive PyObj where
  | part (text : Option String) (strRepr : String) : PyObj
  | list (xs : List PyObj) (strRepr : String) : PyObj
  | other (strRepr : String) : PyObj
deriving Repr

/-- Model of `getattr(p, "text", None)`: only content parts expose a `text`
attribute. -/
def PyObj.textAttr : PyObj → Option String
  | .part t _ => t
  | _ => none

/-- Model of `str(obj)`: every modelled object carries its `str()`
rendering (for a list, Python renders the elements' `repr` inside
brackets; that rendering is not derivable from the modelled fields and no
claim depends on its exact shape, so it is part of the model). -/
def PyObj.pyStr : PyObj → String
  | .part _ r => r
  | .list _ r => r
  | .other r => r

/-- A FastMCP `call_tool` result object: its `data` attribute (`none` for
absent or `None`), its `content` attribute, and its `str()` rendering. -/
structure ToolResult where
  data : Option PyObj := none
  content : Option PyObj := none
  strRepr : String := ""

/-- The per-part text extraction of client.py lines 69-75: a part's `text`
attribute when present, otherwise `str(part)`. -/
def partText (p : PyObj) : String :=
  (p.textAttr).getD p.pyStr

/-- The normalizer `_result_to_text` (client.py lines 52-78): `None` becomes `""`;
a non-`None` `data` attribute wins and is stringified; otherwise a
non-empty `content` list is joined by newlines over `partText`;
otherwise the whole result object is stringified. -/
def _result_to_text : Option ToolResult → String
  | none => ""
  | some r =>
    match r.data with
    | some d => d.pyStr
    | none =>
      match r.content with
      | some (.list xs _) =>
        if xs.isEmpty then r.strRepr
        else String.intercalate "\n" (xs.map partText)
      | _ => r.strRepr

/-! ## Schema translator `_tool_to_ollama_schema` (client.py lines 23-49) -/

/-- A tool descriptor as the translator receives it: either an
attribute-bearing object (each attribute's value, with `Value.null` for an
absent attribute, matching `getattr(tool, ..., None)`), or a key-value
mapping. -/
inductive ToolDescriptor where
  | obj (name description inputSchema input_schema : Value) : ToolDescriptor
  | map (kvs : List (String × Value)) : ToolDescriptor
deriving Repr

/-- The default parameter schema substituted by the translator:
`\x7btype: object, properties: \x7b\x7d\x7d`. -/
def defaultSchema : Value :=
  .dict [("type", .str "object"), ("properties", .dict [])]

/-- The `function` object built by `_tool_to_ollama_schema` (the constant
`"type": "function"` wrapper is omitted from the model; every claim is
about the three function fields). -/
structure OllamaFunction where
  fname : Value
  description : Value
  parameters : Value
deriving Repr

/-- The translator `_tool_to_ollama_schema` (client.py lines 23-49).  Each field is an
`or`-chain over `getattr`/`.get`:
```text
name = getattr(tool, "name", None) or tool.get("name")
description = getattr(tool, "description", None) or tool.get("description", "")
input_schema = getattr(tool, "inputSchema", None)
    or getattr(tool, "input_schema", None)
    or tool.get("inputSchema") or tool.get("input_schema")
    or default
```
On a plain mapping every `getattr` returns `None`, so the `.get` lookups
decide.  On a non-mapping object, reaching a `.get` call raises
`AttributeError` (objects have no `.get`), modelled as `Except.error`. -/
def _tool_to_ollama_schema : ToolDescriptor → Except String OllamaFunction
  | .obj nm ds is1 is2 =>
    if !nm.truthy then .error "AttributeError: no attribute get"
    else if !ds.truthy then .error "AttributeError: no attribute get"
    else if is1.truthy then .ok ⟨nm, ds, is1⟩
    else if is2.truthy then .ok ⟨nm, ds, is2⟩
    else .error "AttributeError: no attribute get"
  | .map kvs =>
    let nm := dictGet kvs "name" .null
    let ds := dictGet kvs "description" (.str "")
    let is1 := dictGet kvs "inputSchema" .null
    let is2 := dictGet kvs "input_schema" .null
    .ok ⟨nm, ds, if is1.truthy then is1 else if is2.truthy then is2 else defaultSchema⟩

/-! ## The per-turn tool-calling loop (client.py lines 161-228) -/

/-- One entry of the `messages` list.  User, system and assistant messages
carry only `role` and `content`; tool messages additionally carry
`tool_call_id` and `name` (optional, matching the dict keys used at
client.py lines 216-223). -/
structure Msg where
  role : String
  content : String
  tool_call_id : Option String := none
  toolName : Option String := none
deriving Repr, DecidableEq

/-- One entry of `msg["tool_calls"]`: `tc.get("id")`, `fn.get("name")`
and `fn.get("arguments")` (client.py lines 189-192). -/
structure ToolCall where
  tcid : Option String := none
  fname : Option String := none
  args : ArgVal := .absent
deriving Repr

/-- The `message` object of one successful chat response, after the
defaulting at client.py lines 165-168: `role` defaults to `"assistant"`,
`content` to `""` (via `or ""`), `tool_calls` to `[]` (via `or []`). -/
structure ChatResp where
  role : String := "assistant"
  content : String := ""
  tool_calls : List ToolCall := []

/-- A model endpoint behavior: given the conversation sent to
`ollama_chat`, either a transport failure (network error or non-2xx
status, which `ollama_chat` logs and re-raises, client.py lines 99-110)
or a response message. -/
def Endpoint : Type := List Msg → Except String ChatResp

/-- A tool executor behavior: `mcp_client.call_tool(tool_name, args)`
(client.py line 210), returning a possibly-absent result. -/
def ToolExec : Type := Option String → List (String × Value) → Option ToolResult

/-- The tool-role message appended for one tool call (client.py lines
208-223): arguments are coerced, the tool is invoked, the result is
normalized, and the message carries the call's correlation id and tool
name. -/
def mkToolMsg (exec : ToolExec) (tc : ToolCall) : Msg :=
  { role := "tool"
    content := _result_to_text (exec tc.fname (coerce_args tc.args))
    tool_call_id := tc.tcid
    toolName := tc.fname }

/-- The user-visible loop-limit notice printed at client.py line 228
(the leading blank line `print` emits before each user-visible line is
omitted throughout the model). -/
def loopLimitNotice : String := "Assistant> Tool loop limit reached; aborting this turn."

/-- Outcome of one user turn: the turn finished with a tool-call-free
response, hit the iteration cap, or a chat call raised and the exception
propagates out of the turn.  Each outcome carries the conversation state,
what was printed to the user, and the number of chat transport calls
made. -/
inductive TurnResult where
  | done (msgs : List Msg) (printed : List String) (ncalls : Nat) : TurnResult
  | limitHit (msgs : List Msg) (printed : List String) (ncalls : Nat) : TurnResult
  | failed (msgs : List Msg) (printed : List String) (err : String) (ncalls : Nat) : TurnResult

def TurnResult.ncalls : TurnResult → Nat
  | .done _ _ n => n
  | .limitHit _ _ n => n
  | .failed _ _ _ n => n

def TurnResult.msgs : TurnResult → List Msg
  | .done m _ _ => m
  | .limitHit m _ _ => m
  | .failed m _ _ _ => m

/-- The `for loop_idx in range(10)` tool-calling loop (client.py lines
161-228), parameterized by remaining iterations (`fuel`) and the number of
chat calls already made.  Exhausted fuel is the `for`/`else` branch that
prints the loop-limit notice.  Within an iteration: a transport error
propagates; non-empty assistant text is appended first; a response without
tool calls prints the text (or a placeholder) and ends the turn; otherwise
each tool call appends its tool-role message in order and the loop
repeats. -/
def toolLoop (ep : Endpoint) (exec : ToolExec) :
    Nat → List Msg → Nat → TurnResult
  | 0, msgs, ncalls => .limitHit msgs [loopLimitNotice] ncalls
  | fuel + 1, msgs, ncalls =>
    match ep msgs with
    | .error e => .failed msgs [] e (ncalls + 1)
    | .ok resp =>
      let msgs1 :=
        if resp.content ≠ "" then msgs ++ [⟨resp.role, resp.content, none, none⟩]
        else msgs
      if resp.tool_calls.isEmpty then
        .done msgs1
          [if resp.content ≠ "" then "Assistant> " ++ resp.content
           else "Assistant> (no content)"]
          (ncalls + 1)
      else
        toolLoop ep exec fuel (msgs1 ++ resp.tool_calls.map (mkToolMsg exec)) (ncalls + 1)

/-- One user turn: the tool-calling loop with its hard cap of ten
iterations (client.py line 161). -/
def runTurn (ep : Endpoint) (exec : ToolExec) (msgs : List Msg) : TurnResult :=
  toolLoop ep exec 10 msgs 0

/-! ## The interactive session loop (client.py lines 136-228) -/

/-- Python `str.strip()` with no argument: remove leading and trailing
whitespace (modelled over the ASCII whitespace characters; every claim's
input is ASCII). -/
def pyWs (c : Char) : Bool :=
  c == ' ' || c == '\t' || c == '\n' || c == '\r' || c == '\x0b' || c == '\x0c'

def pyStrip (s : String) : String :=
  String.mk (((s.toList.dropWhile pyWs).reverse.dropWhile pyWs).reverse)

/-- Python `str.lower()` (modelled over ASCII letters). -/
def pyLower (s : String) : String :=
  String.mk (s.toList.map Char.toLower)

/-- Model of `user_text.lower() in ("exit", "quit")` (client.py line 149). -/
def isSentinel (t : String) : Bool :=
  pyLower t == "exit" || pyLower t == "quit"

/-- The initial conversation: the hard-coded system message (client.py
lines 136-143). -/
def initMessages : List Msg :=
  [⟨"system",
    "Follow system instructions and use the provided tools to assist the user. ALWAYS CALL CURRENT DATE TOOL FIRST",
    none, none⟩]

/-- Outcome of the session: ended by the sentinel phrase, ran out of
scripted user input, or crashed because an exception escaped a turn
(there is no `try`/`except` around the turn loop in `main`, so a turn
failure terminates the whole session; `pending` is the user input never
processed). -/
inductive SessionResult where
  | exited (msgs : List Msg) : SessionResult
  | outOfInput (msgs : List Msg) : SessionResult
  | crashed (msgs : List Msg) (err : String) (pending : List String) : SessionResult

/-- The `while True` session loop (client.py lines 147-228) over a script
of user input lines: strip the input, break on the case-insensitive
sentinel, skip blank input, otherwise append the (stripped) user message
and run the turn.  A failed turn propagates as a crash of the session. -/
def sessionLoop (ep : Endpoint) (exec : ToolExec) :
    List String → List Msg → SessionResult
  | [], msgs => .outOfInput msgs
  | raw :: rest, msgs =>
    let t := pyStrip raw
    if isSentinel t then .exited msgs
    else if t = "" then sessionLoop ep exec rest msgs
    else
      match runTurn ep exec (msgs ++ [⟨"user", t, none, none⟩]) with
      | .failed m _ e _ => .crashed m e rest
      | .done m _ _ => sessionLoop ep exec rest m
      | .limitHit m _ _ => sessionLoop ep exec rest m

/-! ## Concrete behaviors used to instantiate the theorems -/

/-- A model endpoint whose every call fails at the transport layer. -/
def epFail : Endpoint := fun _ => Except.error "connection refused"

/-- A model endpoint whose every response is plain text without tool
calls. -/
def epNoTools : Endpoint := fun _ => Except.ok ⟨"assistant", "hi there", []⟩

/-- A model endpoint whose every response requests one tool call. -/
def epAllTools : Endpoint :=
  fun _ => Except.ok ⟨"assistant", "", [⟨some "1", some "get_weather", ArgVal.absent⟩]⟩

def tcA : ToolCall := ⟨some "a", some "alpha", ArgVal.absent⟩

def tcB : ToolCall := ⟨some "b", some "beta", ArgVal.str "\x7b\"state\":\"CA\"\x7d"⟩

def tcC : ToolCall := ⟨some "c", some "gamma", ArgVal.other⟩

/-- A model endpoint whose every response carries assistant text and the
three tool calls `tcA`, `tcB`, `tcC`. -/
def epThreeCalls : Endpoint :=
  fun _ => Except.ok ⟨"assistant", "working on it", [tcA, tcB, tcC]⟩

/-- A tool executor that returns an absent result for every call. -/
def execNone : ToolExec := fun _ _ => none

/-! ## Theorems -/

/-- C3: argument coercion on the three spec examples: the well-formed JSON
string decodes to the corresponding mapping, the malformed string is
wrapped as a `_raw` mapping, and a non-string non-mapping argument
(absent, or of any other type) becomes the empty mapping. -/
theorem C3_argument_coercion :
    coerce_args (ArgVal.str "\x7b\"state\":\"CA\"\x7d") = [("state", Value.str "CA")] ∧
    coerce_args (ArgVal.str "\x7bbad") = [("_raw", Value.str "\x7bbad")] ∧
    coerce_args ArgVal.absent = [] ∧
    coerce_args ArgVal.other = [] :=
  ⟨rfl, rfl, rfl, rfl⟩

/-- C2, counterexample: the claim says a tool-call request whose arguments
fail JSON decoding is invoked with an *empty* argument mapping, but on the
malformed string the code invokes the tool with the `_raw` wrapper
mapping, which is not empty. -/
theorem C2_counterexample :
    coerce_args (ArgVal.str "\x7bbad") = [("_raw", Value.str "\x7bbad")] ∧
    coerce_args (ArgVal.str "\x7bbad") ≠ ([] : List (String × Value)) := by
  refine ⟨rfl, fun h => ?_⟩
  rw [show coerce_args (ArgVal.str "\x7bbad") = [("_raw", Value.str "\x7bbad")] from rfl] at h
  exact List.noConfusion h

/-- C2, amended: a tool-call request whose string arguments fail JSON
decoding is invoked with the raw-string wrapper mapping `(_raw: original)`
rather than failing the turn; a request whose decoded arguments are not a
mapping is invoked with the empty argument mapping. -/
theorem C2_amended_decode_failure (s : String) :
    (json_loads s = none → coerce_args (ArgVal.str s) = [("_raw", Value.str s)]) ∧
    (∀ v, json_loads s = some v → (∀ kvs, v ≠ Value.dict kvs) →
      coerce_args (ArgVal.str s) = []) := by
  constructor
  · intro h
    simp [coerce_args, h]
  · intro v h hv
    cases v with
    | dict kvs => exact absurd rfl (hv kvs)
    | null => simp [coerce_args, h]
    | bool b => simp [coerce_args, h]
    | int n => simp [coerce_args, h]
    | num r => simp [coerce_args, h]
    | str t => simp [coerce_args, h]
    | list xs => simp [coerce_args, h]

/-- C2, witness: the amended statement evaluated at the malformed string
`'\x7bbad'` (decode failure) and at `'42'` (decodes to a non-mapping). -/
theorem C2_amended_witness :
    coerce_args (ArgVal.str "\x7bbad") = [("_raw", Value.str "\x7bbad")] ∧
    coerce_args (ArgVal.str "42") = [] :=
  ⟨(C2_amended_decode_failure "\x7bbad").1 rfl,
   (C2_amended_decode_failure "42").2 (Value.int 42) rfl
     (fun _ h => Value.noConfusion h)⟩

/-- C6: the result normalizer is total (it is a function into `String`)
and follows the resolution order: an absent result yields `""`; a result
with a `data` field stringifies it; otherwise a result carrying a
(non-empty) list of content parts joins the parts' texts — falling back to
stringifying a part without text — by newlines; otherwise the whole result
object is stringified. -/
theorem C6_normalizer_resolution :
    _result_to_text none = "" ∧
    (∀ (r : ToolResult) (d : PyObj), r.data = some d →
      _result_to_text (some r) = d.pyStr) ∧
    (∀ (r : ToolResult) (xs : List PyObj) (rep : String), r.data = none →
      r.content = some (PyObj.list xs rep) → xs ≠ [] →
      _result_to_text (some r) = String.intercalate "\n" (xs.map partText)) ∧
    (∀ r : ToolResult, r.data = none →
      (∀ xs rep, r.content ≠ some (PyObj.list xs rep) ∨ xs = []) →
      _result_to_text (some r) = r.strRepr) := by
  refine ⟨rfl, ?_, ?_, ?_⟩
  · intro r d h
    simp [_result_to_text, h]
  · intro r xs rep hd hc hne
    simp [_result_to_text, hd, hc, hne]
  · intro r hd hc
    cases h : r.content with
    | none => simp [_result_to_text, hd, h]
    | some p =>
      cases p with
      | part t s => simp [_result_to_text, hd, h]
      | other s => simp [_result_to_text, hd, h]
      | list xs rep =>
        rcases hc xs rep with hne | hxs
        · exact absurd h hne
        · subst hxs
          simp [_result_to_text, hd, h]

/-- C6, witness: the four resolution branches evaluated on concrete
results. -/
theorem C6_normalizer_witness :
    _result_to_text (some ⟨some (PyObj.other "D"), some (PyObj.list [] "[]"), "W"⟩) = "D" ∧
    _result_to_text
      (some ⟨none, some (PyObj.list [PyObj.part (some "a") "ra", PyObj.other "rb"] "L"), "W"⟩)
      = "a\nrb" ∧
    _result_to_text (some ⟨none, none, "W"⟩) = "W" :=
  ⟨C6_normalizer_resolution.2.1 _ (PyObj.other "D") rfl,
   C6_normalizer_resolution.2.2.1 _ [PyObj.part (some "a") "ra", PyObj.other "rb"] "L"
     rfl rfl (fun h => List.noConfusion h),
   C6_normalizer_resolution.2.2.2 _ rfl (fun _ _ => Or.inl (fun h => Option.noConfusion h))⟩

/-- C9: a non-absent result without a `data` field and with an *empty*
content list is normalized to the stringification of the whole result
object, not to the empty string: the content-parts branch requires a
non-empty list. -/
theorem C9_empty_content_list (r : ToolResult) (rep : String)
    (hd : r.data = none) (hc : r.content = some (PyObj.list [] rep)) :
    _result_to_text (some r) = r.strRepr ∧
    (r.strRepr ≠ "" → _result_to_text (some r) ≠ "") := by
  have h : _result_to_text (some r) = r.strRepr := by
    simp [_result_to_text, hd, hc]
  exact ⟨h, fun hne => h ▸ hne⟩

/-- C9, witness: a concrete result with absent data, empty content list
and stringification `"WHOLE"`. -/
theorem C9_empty_content_witness :
    _result_to_text (some ⟨none, some (PyObj.list [] "[]"), "WHOLE"⟩) = "WHOLE" ∧
    _result_to_text (some ⟨none, some (PyObj.list [] "[]"), "WHOLE"⟩) ≠ "" :=
  ⟨(C9_empty_content_list _ "[]" rfl rfl).1,
   (C9_empty_content_list ⟨none, some (PyObj.list [] "[]"), "WHOLE"⟩ "[]" rfl rfl).2
     (by simp)⟩

/-- C7, counterexample: the claim says the descriptor's input schema is
passed through unchanged as the parameter schema, with the default
substituted only when the schema is *absent*.  But for a mapping
descriptor whose `input_schema` is present and equal to the empty object,
the `or`-chain treats the falsy value as missing and substitutes the
default schema, which differs from the provided empty object. -/
theorem C7_counterexample :
    _tool_to_ollama_schema
      (ToolDescriptor.map [("name", Value.str "t"), ("input_schema", Value.dict [])])
      = Except.ok ⟨Value.str "t", Value.str "", defaultSchema⟩ ∧
    defaultSchema ≠ Value.dict [] := by
  refine ⟨rfl, fun h => ?_⟩
  rw [show defaultSchema
      = Value.dict [("type", Value.str "object"), ("properties", Value.dict [])]
    from rfl] at h
  have h2 := Value.dict.inj h
  exact List.noConfusion h2

/-- C7, amended: for a mapping descriptor the translator emits the
descriptor's name (`None` when absent), its description (`""` when
absent), and passes the input schema through unchanged only when the
looked-up value is truthy — preferring the `inputSchema` key, then
`input_schema`; when both lookups are falsy (absent, `None`, or an empty
object) it substitutes the default empty object schema.  For an
attribute-bearing descriptor whose name, description and `inputSchema`
attributes are truthy, the three fields pass through unchanged; but when
the name, the description, or both schema attributes are falsy, the
translator raises `AttributeError` (the `or`-chain falls through to
`.get` on a non-mapping) instead of substituting the default. -/
theorem C7_amended_truthiness (kvs : List (String × Value))
    (nm ds is1 is2 : Value) :
    ((dictGet kvs "inputSchema" Value.null).truthy = true →
      _tool_to_ollama_schema (ToolDescriptor.map kvs)
        = Except.ok ⟨dictGet kvs "name" Value.null,
            dictGet kvs "description" (Value.str ""),
            dictGet kvs "inputSchema" Value.null⟩) ∧
    ((dictGet kvs "inputSchema" Value.null).truthy = false →
      (dictGet kvs "input_schema" Value.null).truthy = true →
      _tool_to_ollama_schema (ToolDescriptor.map kvs)
        = Except.ok ⟨dictGet kvs "name" Value.null,
            dictGet kvs "description" (Value.str ""),
            dictGet kvs "input_schema" Value.null⟩) ∧
    ((dictGet kvs "inputSchema" Value.null).truthy = false →
      (dictGet kvs "input_schema" Value.null).truthy = false →
      _tool_to_ollama_schema (ToolDescriptor.map kvs)
        = Except.ok ⟨dictGet kvs "name" Value.null,
            dictGet kvs "description" (Value.str ""),
            defaultSchema⟩) ∧
    (nm.truthy = true → ds.truthy = true → is1.truthy = true →
      _tool_to_ollama_schema (ToolDescriptor.obj nm ds is1 is2)
        = Except.ok ⟨nm, ds, is1⟩) ∧
    (nm.truthy = false ∨ ds.truthy = false ∨
        (is1.truthy = false ∧ is2.truthy = false) →
      ∃ e, _tool_to_ollama_schema (ToolDescriptor.obj nm ds is1 is2)
        = Except.error e) := by
  refine ⟨?_, ?_, ?_, ?_, ?_⟩
  · intro h1
    simp [_tool_to_ollama_schema, h1]
  · intro h1 h2
    simp [_tool_to_ollama_schema, h1, h2]
  · intro h1 h2
    simp [_tool_to_ollama_schema, h1, h2]
  · intro h1 h2 h3
    simp [_tool_to_ollama_schema, h1, h2, h3]
  · intro h
    rcases h with h | h | h
    · exact ⟨"AttributeError: no attribute get", by simp [_tool_to_ollama_schema, h]⟩
    · cases hn : nm.truthy with
      | false => exact ⟨"AttributeError: no attribute get", by simp [_tool_to_ollama_schema, hn]⟩
      | true => exact ⟨"AttributeError: no attribute get", by simp [_tool_to_ollama_schema, hn, h]⟩
    · cases hn : nm.truthy with
      | false => exact ⟨"AttributeError: no attribute get", by simp [_tool_to_ollama_schema, hn]⟩
      | true =>
        cases hd : ds.truthy with
        | false => exact ⟨"AttributeError: no attribute get", by simp [_tool_to_ollama_schema, hn, hd]⟩
        | true => exact ⟨"AttributeError: no attribute get", by simp [_tool_to_ollama_schema, hn, hd, h.1, h.2]⟩

/-- C7, witness: the amended statement evaluated on a mapping descriptor
with a truthy schema (passed through unchanged), a mapping descriptor
with an empty schema (default substituted), an attribute descriptor with
truthy fields (passed through), and an attribute descriptor without
schema attributes (raises). -/
theorem C7_amended_witness :
    _tool_to_ollama_schema
      (ToolDescriptor.map [("name", Value.str "t"),
        ("inputSchema", Value.dict [("type", Value.str "object")])])
      = Except.ok ⟨Value.str "t", Value.str "",
          Value.dict [("type", Value.str "object")]⟩ ∧
    _tool_to_ollama_schema
      (ToolDescriptor.map [("name", Value.str "t"), ("input_schema", Value.dict [])])
      = Except.ok ⟨Value.str "t", Value.str "", defaultSchema⟩ ∧
    _tool_to_ollama_schema
      (ToolDescriptor.obj (Value.str "n") (Value.str "d")
        (Value.dict [("type", Value.str "object")]) Value.null)
      = Except.ok ⟨Value.str "n", Value.str "d",
          Value.dict [("type", Value.str "object")]⟩ ∧
    (∃ e, _tool_to_ollama_schema
      (ToolDescriptor.obj (Value.str "n") (Value.str "d") Value.null Value.null)
      = Except.error e) :=
  ⟨(C7_amended_truthiness _ Value.null Value.null Value.null Value.null).1 rfl,
   (C7_amended_truthiness _ Value.null Value.null Value.null Value.null).2.2.1 rfl rfl,
   (C7_amended_truthiness [] (Value.str "n") (Value.str "d")
      (Value.dict [("type", Value.str "object")]) Value.null).2.2.2.1 rfl rfl rfl,
   (C7_amended_truthiness [] (Value.str "n") (Value.str "d")
      Value.null Value.null).2.2.2.2 (Or.inr (Or.inr ⟨rfl, rfl⟩))⟩

/-! ## Helper lemmas about the tool-calling loop -/

theorem toolLoop_zero (ep : Endpoint) (exec : ToolExec) (msgs : List Msg) (n : Nat) :
    toolLoop ep exec 0 msgs n = .limitHit msgs [loopLimitNotice] n := rfl

theorem toolLoop_error (ep : Endpoint) (exec : ToolExec) (fuel : Nat)
    (msgs : List Msg) (n : Nat) (e : String) (h : ep msgs = Except.error e) :
    toolLoop ep exec (fuel + 1) msgs n = .failed msgs [] e (n + 1) := by
  simp [toolLoop, h]

theorem toolLoop_done (ep : Endpoint) (exec : ToolExec) (fuel : Nat)
    (msgs : List Msg) (n : Nat) (resp : ChatResp)
    (h : ep msgs = Except.ok resp) (ht : resp.tool_calls = []) :
    toolLoop ep exec (fuel + 1) msgs n =
      .done (if resp.content ≠ "" then msgs ++ [⟨resp.role, resp.content, none, none⟩] else msgs)
        [if resp.content ≠ "" then "Assistant> " ++ resp.content
         else "Assistant> (no content)"]
        (n + 1) := by
  simp only [toolLoop, h, ht, List.isEmpty_nil, if_true]

theorem toolLoop_step (ep : Endpoint) (exec : ToolExec) (fuel : Nat)
    (msgs : List Msg) (n : Nat) (resp : ChatResp)
    (h : ep msgs = Except.ok resp) (ht : resp.tool_calls ≠ []) :
    toolLoop ep exec (fuel + 1) msgs n =
      toolLoop ep exec fuel
        ((if resp.content ≠ "" then msgs ++ [⟨resp.role, resp.content, none, none⟩] else msgs)
          ++ resp.tool_calls.map (mkToolMsg exec))
        (n + 1) := by
  have hne : resp.tool_calls.isEmpty = false := by
    cases hc : resp.tool_calls with
    | nil => exact absurd hc ht
    | cons a l => rfl
  simp only [toolLoop, h, hne, Bool.false_eq_true, if_false]

theorem toolLoop_ncalls_le (ep : Endpoint) (exec : ToolExec) :
    ∀ (fuel : Nat) (msgs : List Msg) (n : Nat),
      (toolLoop ep exec fuel msgs n).ncalls ≤ n + fuel := by
  intro fuel
  induction fuel with
  | zero =>
    intro msgs n
    simp [toolLoop_zero, TurnResult.ncalls]
  | succ f ih =>
    intro msgs n
    cases h : ep msgs with
    | error e =>
      rw [toolLoop_error ep exec f msgs n e h]
      simp only [TurnResult.ncalls]
      omega
    | ok resp =>
      cases ht : resp.tool_calls with
      | nil =>
        rw [toolLoop_done ep exec f msgs n resp h ht]
        simp only [TurnResult.ncalls]
        omega
      | cons a l =>
        rw [toolLoop_step ep exec f msgs n resp h (by rw [ht]; exact List.cons_ne_nil a l)]
        calc (toolLoop ep exec f _ (n + 1)).ncalls ≤ (n + 1) + f := ih _ (n + 1)
          _ = n + (f + 1) := by omega

theorem toolLoop_always_tools (ep : Endpoint) (exec : ToolExec)
    (H : ∀ msgs, ∃ resp, ep msgs = Except.ok resp ∧ resp.tool_calls ≠ []) :
    ∀ (fuel : Nat) (msgs : List Msg) (n : Nat),
      ∃ m, toolLoop ep exec fuel msgs n = .limitHit m [loopLimitNotice] (n + fuel) := by
  intro fuel
  induction fuel with
  | zero =>
    intro msgs n
    exact ⟨msgs, by simp [toolLoop_zero]⟩
  | succ f ih =>
    intro msgs n
    obtain ⟨resp, h, ht⟩ := H msgs
    rw [toolLoop_step ep exec f msgs n resp h ht]
    obtain ⟨m, hm⟩ := ih _ (n + 1)
    refine ⟨m, ?_⟩
    rw [hm]
    have : n + 1 + f = n + (f + 1) := by omega
    rw [this]

/-- C4: for every model endpoint behavior the per-turn loop makes at most
ten chat transport calls; if every response carries tool calls the loop
terminates after exactly ten iterations and emits the loop-limit notice;
if the first response carries no tool calls the loop terminates after
exactly one iteration. -/
theorem C4_loop_bounds :
    (∀ (ep : Endpoint) (exec : ToolExec) (msgs : List Msg),
      (runTurn ep exec msgs).ncalls ≤ 10) ∧
    (∀ (ep : Endpoint) (exec : ToolExec) (msgs : List Msg),
      (∀ ms, ∃ resp, ep ms = Except.ok resp ∧ resp.tool_calls ≠ []) →
      ∃ m, runTurn ep exec msgs = .limitHit m [loopLimitNotice] 10) ∧
    (∀ (ep : Endpoint) (exec : ToolExec) (msgs : List Msg) (resp : ChatResp),
      ep msgs = Except.ok resp → resp.tool_calls = [] →
      runTurn ep exec msgs =
        .done (if resp.content ≠ "" then msgs ++ [⟨resp.role, resp.content, none, none⟩]
               else msgs)
          [if resp.content ≠ "" then "Assistant> " ++ resp.content
           else "Assistant> (no content)"]
          1) := by
  refine ⟨?_, ?_, ?_⟩
  · intro ep exec msgs
    have := toolLoop_ncalls_le ep exec 10 msgs 0
    simpa [runTurn] using this
  · intro ep exec msgs H
    have := toolLoop_always_tools ep exec H 10 msgs 0
    simpa [runTurn] using this
  · intro ep exec msgs resp h ht
    have := toolLoop_done ep exec 9 msgs 0 resp h ht
    simpa [runTurn] using this

/-- C4, witness: the bound at the failing endpoint, the exact-ten
behavior at an endpoint that always requests a tool call, and the
one-iteration behavior at an endpoint that never requests one. -/
theorem C4_loop_bounds_witness :
    (runTurn epFail execNone initMessages).ncalls ≤ 10 ∧
    (∃ m, runTurn epAllTools execNone initMessages = .limitHit m [loopLimitNotice] 10) ∧
    runTurn epNoTools execNone initMessages =
      .done (initMessages ++ [⟨"assistant", "hi there", none, none⟩])
        ["Assistant> hi there"] 1 := by
  refine ⟨C4_loop_bounds.1 epFail execNone initMessages, ?_, ?_⟩
  · exact C4_loop_bounds.2.1 epAllTools execNone initMessages
      (fun ms => ⟨⟨"assistant", "", [⟨some "1", some "get_weather", ArgVal.absent⟩]⟩,
        rfl, List.cons_ne_nil _ _⟩)
  · have := C4_loop_bounds.2.2 epNoTools execNone initMessages
      ⟨"assistant", "hi there", []⟩ rfl rfl
    simpa using this

/-- C5: within one loop iteration the messages are appended in order —
first the assistant's text as an assistant message, only when that text is
non-empty, then for tool calls `[a, b, c]` exactly three tool-role
messages in the order a, b, c, each carrying the call's correlation id,
tool name, and normalized result text. -/
theorem C5_message_order (ep : Endpoint) (exec : ToolExec) (fuel : Nat)
    (msgs : List Msg) (n : Nat) (resp : ChatResp) (a b c : ToolCall)
    (h : ep msgs = Except.ok resp) (hrole : resp.role = "assistant")
    (ht : resp.tool_calls = [a, b, c]) :
    toolLoop ep exec (fuel + 1) msgs n =
      toolLoop ep exec fuel
        ((if resp.content ≠ "" then msgs ++ [⟨"assistant", resp.content, none, none⟩]
          else msgs)
          ++ [mkToolMsg exec a, mkToolMsg exec b, mkToolMsg exec c])
        (n + 1) ∧
    (∀ tc : ToolCall, mkToolMsg exec tc =
      ⟨"tool", _result_to_text (exec tc.fname (coerce_args tc.args)), tc.tcid, tc.fname⟩) := by
  constructor
  · rw [toolLoop_step ep exec fuel msgs n resp h (by rw [ht]; exact List.cons_ne_nil _ _)]
    rw [hrole, ht]
    rfl
  · intro tc
    rfl

/-- C5, witness: one iteration of the loop at an endpoint responding with
assistant text and the three tool calls `tcA`, `tcB`, `tcC`. -/
theorem C5_message_order_witness :
    toolLoop epThreeCalls execNone 10 initMessages 0 =
      toolLoop epThreeCalls execNone 9
        ((initMessages ++ [⟨"assistant", "working on it", none, none⟩])
          ++ [mkToolMsg execNone tcA, mkToolMsg execNone tcB, mkToolMsg execNone tcC])
        1 ∧
    mkToolMsg execNone tcB =
      ⟨"tool", _result_to_text (execNone tcB.fname (coerce_args tcB.args)),
        tcB.tcid, tcB.fname⟩ := by
  have h := C5_message_order epThreeCalls execNone 9 initMessages 0
    ⟨"assistant", "working on it", [tcA, tcB, tcC]⟩ tcA tcB tcC rfl rfl rfl
  exact ⟨by simpa using h.1, h.2 tcB⟩

theorem runTurn_error (ep : Endpoint) (exec : ToolExec) (msgs : List Msg)
    (e : String) (h : ep msgs = Except.error e) :
    runTurn ep exec msgs = .failed msgs [] e 1 := by
  have h9 := toolLoop_error ep exec 9 msgs 0 e h
  simpa [runTurn] using h9

/-! ## Helper lemmas about the session loop -/

theorem sessionLoop_sentinel (ep : Endpoint) (exec : ToolExec)
    (raw : String) (rest : List String) (msgs : List Msg)
    (h : isSentinel (pyStrip raw) = true) :
    sessionLoop ep exec (raw :: rest) msgs = .exited msgs := by
  simp [sessionLoop, h]

theorem sessionLoop_blank (ep : Endpoint) (exec : ToolExec)
    (raw : String) (rest : List String) (msgs : List Msg)
    (h : pyStrip raw = "") :
    sessionLoop ep exec (raw :: rest) msgs = sessionLoop ep exec rest msgs := by
  have hs : isSentinel "" = false := rfl
  simp [sessionLoop, h, hs]

theorem sessionLoop_turn (ep : Endpoint) (exec : ToolExec)
    (raw : String) (rest : List String) (msgs : List Msg)
    (hs : isSentinel (pyStrip raw) = false) (hne : pyStrip raw ≠ "") :
    sessionLoop ep exec (raw :: rest) msgs =
      match runTurn ep exec (msgs ++ [⟨"user", pyStrip raw, none, none⟩]) with
      | .failed m _ e _ => .crashed m e rest
      | .done m _ _ => sessionLoop ep exec rest m
      | .limitHit m _ _ => sessionLoop ep exec rest m := by
  simp [sessionLoop, hs, hne]

/-- C1, counterexample: the claim says a transport failure is fatal to the
current turn only and the session continues to accept the next user input
rather than crashing.  With an endpoint that fails at the transport layer
(as `ollama_chat` does on a network error or non-2xx response, which it
re-raises and `main` never catches), the session crashes after the first
turn and the second user input is left pending, never processed. -/
theorem C1_counterexample :
    sessionLoop epFail execNone ["hello", "hi again"] initMessages =
      .crashed (initMessages ++ [⟨"user", "hello", none, none⟩])
        "connection refused" ["hi again"] := rfl

/-- C1, amended: a transport failure does stop the remaining iterations of
the current turn — inside the turn loop a chat-call error immediately
yields a failed turn with no further chat calls — but the failure is fatal
to the whole session, not to the turn only: the exception propagates out
of the turn and terminates the session with the remaining user input
unprocessed, instead of returning to the prompt. -/
theorem C1_transport_failure_fatal :
    (∀ (ep : Endpoint) (exec : ToolExec) (fuel : Nat) (msgs : List Msg)
        (n : Nat) (e : String), ep msgs = Except.error e →
      toolLoop ep exec (fuel + 1) msgs n = .failed msgs [] e (n + 1)) ∧
    (∀ (ep : Endpoint) (exec : ToolExec) (raw : String) (rest : List String)
        (msgs : List Msg) (e : String),
      isSentinel (pyStrip raw) = false → pyStrip raw ≠ "" →
      ep (msgs ++ [⟨"user", pyStrip raw, none, none⟩]) = Except.error e →
      sessionLoop ep exec (raw :: rest) msgs =
        .crashed (msgs ++ [⟨"user", pyStrip raw, none, none⟩]) e rest) := by
  constructor
  · intro ep exec fuel msgs n e h
    exact toolLoop_error ep exec fuel msgs n e h
  · intro ep exec raw rest msgs e hs hne h
    rw [sessionLoop_turn ep exec raw rest msgs hs hne]
    rw [runTurn_error _ _ _ _ h]

/-- C1, witness: the amended statement at the failing endpoint, with one
pending input left unprocessed when the session crashes. -/
theorem C1_transport_failure_witness :
    toolLoop epFail execNone 10 initMessages 0 =
      .failed initMessages [] "connection refused" 1 ∧
    sessionLoop epFail execNone ["hello", "hi again"] initMessages =
      .crashed (initMessages ++ [⟨"user", "hello", none, none⟩])
        "connection refused" ["hi again"] :=
  ⟨C1_transport_failure_fatal.1 epFail execNone 9 initMessages 0 "connection refused" rfl,
   C1_transport_failure_fatal.2 epFail execNone "hello" ["hi again"] initMessages
     "connection refused" rfl (by decide) rfl⟩

/-- C8: a user input equal, case-insensitively, to "exit" or "quit"
terminates the session without appending any user message and without
starting a turn; blank user input starts no turn and appends no
message. -/
theorem C8_sentinel_and_blank :
    (∀ (ep : Endpoint) (exec : ToolExec) (raw : String) (rest : List String)
        (msgs : List Msg),
      pyLower (pyStrip raw) = "exit" ∨ pyLower (pyStrip raw) = "quit" →
      sessionLoop ep exec (raw :: rest) msgs = .exited msgs) ∧
    (∀ (ep : Endpoint) (exec : ToolExec) (rest : List String) (msgs : List Msg),
      sessionLoop ep exec ("" :: rest) msgs = sessionLoop ep exec rest msgs) := by
  constructor
  · intro ep exec raw rest msgs h
    refine sessionLoop_sentinel ep exec raw rest msgs ?_
    rcases h with h | h <;> simp [isSentinel, h]
  · intro ep exec rest msgs
    exact sessionLoop_blank ep exec "" rest msgs rfl

/-- C8, witness: the uppercase sentinel `"EXIT"` ends the session leaving
the conversation untouched, and the literal blank input is skipped. -/
theorem C8_sentinel_witness :
    sessionLoop epNoTools execNone ["EXIT", "later"] initMessages =
      .exited initMessages ∧
    sessionLoop epNoTools execNone [""] initMessages =
      sessionLoop epNoTools execNone [] initMessages :=
  ⟨C8_sentinel_and_blank.1 epNoTools execNone "EXIT" ["later"] initMessages
     (Or.inl rfl),
   C8_sentinel_and_blank.2 epNoTools execNone [] initMessages⟩

/-- C10: user input is whitespace-stripped before any processing — input
that strips to the empty string starts no turn and appends no message, a
whitespace-padded sentinel such as `"  exit  "` still terminates the
session, and the user message appended for a real turn carries the
stripped text, not the raw input. -/
theorem C10_strip_before_processing :
    (∀ (ep : Endpoint) (exec : ToolExec) (raw : String) (rest : List String)
        (msgs : List Msg), pyStrip raw = "" →
      sessionLoop ep exec (raw :: rest) msgs = sessionLoop ep exec rest msgs) ∧
    (∀ (ep : Endpoint) (exec : ToolExec) (rest : List String) (msgs : List Msg),
      sessionLoop ep exec ("  exit  " :: rest) msgs = .exited msgs) ∧
    (∀ (ep : Endpoint) (exec : ToolExec) (raw : String) (rest : List String)
        (msgs : List Msg),
      isSentinel (pyStrip raw) = false → pyStrip raw ≠ "" →
      sessionLoop ep exec (raw :: rest) msgs =
        match runTurn ep exec (msgs ++ [⟨"user", pyStrip raw, none, none⟩]) with
        | .failed m _ e _ => .crashed m e rest
        | .done m _ _ => sessionLoop ep exec rest m
        | .limitHit m _ _ => sessionLoop ep exec rest m) := by
  refine ⟨?_, ?_, ?_⟩
  · intro ep exec raw rest msgs h
    exact sessionLoop_blank ep exec raw rest msgs h
  · intro ep exec rest msgs
    exact sessionLoop_sentinel ep exec "  exit  " rest msgs rfl
  · intro ep exec raw rest msgs hs hne
    exact sessionLoop_turn ep exec raw rest msgs hs hne

/-- C10, witness: whitespace-only input is skipped, the padded sentinel
exits, and the padded input `"  hello  "` starts a turn whose appended
user message carries the stripped text `"hello"`. -/
theorem C10_strip_witness :
    sessionLoop epNoTools execNone ["   ", "quit"] initMessages =
      sessionLoop epNoTools execNone ["quit"] initMessages ∧
    sessionLoop epNoTools execNone ["  exit  "] initMessages = .exited initMessages ∧
    sessionLoop epNoTools execNone ["  hello  "] initMessages =
      match runTurn epNoTools execNone (initMessages ++ [⟨"user", "hello", none, none⟩]) with
      | .failed m _ e _ => .crashed m e []
      | .done m _ _ => sessionLoop epNoTools execNone [] m
      | .limitHit m _ _ => sessionLoop epNoTools execNone [] m :=
  ⟨C10_strip_before_processing.1 epNoTools execNone "   " ["quit"] initMessages rfl,
   C10_strip_before_processing.2.1 epNoTools execNone [] initMessages,
   C10_strip_before_processing.2.2 epNoTools execNone "  hello  " [] initMessages
     rfl (by decide)⟩

end OllamaMcp
